import Mathlib

/-!
Verification of the sevico-be authentication service.

Shallow embedding of the core of the repository:
  - src/app/services/auth_service.py   (AuthService: register_user, verify_email,
    authenticate_user, initiate_password_reset, confirm_password_reset)
  - src/app/utils/jwt_helper.py        (create_access_token, verify_token,
    get_email_from_token), over a model of the external jose JWT library
  - src/app/routes/auth_routes.py      (the password_reset route handler)

Modelling conventions:
  - The MongoDB users collection is a list of documents; find_one returns the
    first document matching the email filter, insert_one appends, update_one
    with a filter on email rewrites the first matching document.
  - Wall-clock time (datetime.utcnow) is an explicit integer parameter now,
    in seconds; a timedelta of m minutes is m * 60, of h hours is h * 3600.
    The several utcnow() calls inside one operation are identified.
  - Randomness (random.choices) is an explicit input stream of naturals; the
    generated value is a pure function of that stream.
  - The password hasher src/app/utils/password_helper.py is imported by the
    service but is not part of the sources at hand; it is modelled from the
    spec (section 4.1 Credential Hasher), see HashValue below.
-/

namespace Sevico

/-! ## Settings (src/app/config/settings.py, defaults) -/

def verification_code_expiration_minutes : Int := 15

def jwt_expiration_hours : Int := 24

def password_reset_expiration_hours : Int := 1

def jwt_secret_key : String := "your-jwt-secret-key-change-in-production"

def jwt_algorithm : String := "HS256"

/-! ## Credential hasher

Modelled from the spec: src/app/utils/password_helper.py (hash_password,
verify_password) is imported by auth_service.py but its source is not among
the files at hand.  Spec section 4.1: hash(password) is salted and one-way,
verify(password, hash_value) is true exactly when the password is the one
that was hashed; the salt makes two hashes of the same plaintext differ.
The model records the salt and the plaintext inside the hash value; the
one-way property is outside the model, the functional behaviour of verify
is what the claims use. -/

structure HashValue where
  salt : Nat
  plaintext : String
  deriving DecidableEq, Repr

def hash_password (salt : Nat) (password : String) : HashValue :=
  ⟨salt, password⟩

def verify_password (password : String) (h : HashValue) : Bool :=
  password == h.plaintext

/-! ## Secret generators (auth_service.py lines 19-25)

generate_verification_code is join(random.choices(string.digits, k=6));
generate_reset_token is join(random.choices(ascii_letters + digits, k=32)).
random.choices draws k independent indices into the alphabet from the
module-level Mersenne Twister PRNG; the PRNG is modelled as an explicit
stream of chosen indices, so each generated secret is a pure function of
the stream. -/

def string_digits : List Char := "0123456789".toList

def ascii_letters_and_digits : List Char :=
  "abcdefghijklmnopqrstuvwxyzABCDEFGHIJKLMNOPQRSTUVWXYZ0123456789".toList

def generate_verification_code (stream : Nat → Nat) : String :=
  String.mk ((List.range 6).map fun i =>
    string_digits.getD (stream i % string_digits.length) '0')

def generate_reset_token (stream : Nat → Nat) : String :=
  String.mk ((List.range 32).map fun i =>
    ascii_letters_and_digits.getD (stream i % ascii_letters_and_digits.length) '0')

/-! ## User documents and the users collection -/

/-- A document of the users collection, with the fields written by
register_user (auth_service.py lines 54-65).  dob is modelled as an integer
timestamp.  The two password-reset fields are absent in a freshly inserted
document; user.get returns None for an absent field, so absence and None
are identified as none. -/
structure UserDoc where
  email : String
  password_hash : HashValue
  fullname : Option String
  avatar : Option String
  dob : Option Int
  is_verified : Bool
  verification_code : Option String
  verification_code_expires_at : Option Int
  password_reset_token : Option String
  password_reset_token_expires_at : Option Int
  created_at : Int
  updated_at : Int
  deriving DecidableEq, Repr

/-- users_collection.find_one on the filter by email: first matching document. -/
def find_one (store : List UserDoc) (email : String) : Option UserDoc :=
  store.find? fun u => u.email == email

/-- users_collection.insert_one: append the document. -/
def insert_one (store : List UserDoc) (doc : UserDoc) : List UserDoc :=
  store ++ [doc]

/-- users_collection.update_one on the filter by email with a set of field
updates f: rewrite the first matching document, leave the rest unchanged. -/
def update_one (store : List UserDoc) (email : String) (f : UserDoc → UserDoc) :
    List UserDoc :=
  match store with
  | [] => []
  | u :: rest =>
      if u.email == email then f u :: rest else u :: update_one rest email f

/-- Number of documents of the store carrying a given email. -/
def countEmail (store : List UserDoc) (email : String) : Nat :=
  (store.filter fun u => u.email == email).length

/-! ## JWT model (external jose library, as used by src/app/utils/jwt_helper.py)

A claim value is a string or an integer (the payloads the repository builds
hold a string sub and an integer exp; verify_token must handle arbitrary
token payloads, so both shapes are kept).  A token is the signed pair of its
payload and the signing key and algorithm; signature validity under a key is
modelled as equality of that key with the one recorded at signing, which is
the tamper-evidence contract of jose.  jwt.decode validates the signature,
then the registered claims: an exp claim must be an integer not in the past,
a sub claim must be a string. -/

inductive ClaimValue where
  | str (s : String)
  | int (n : Int)
  deriving DecidableEq, Repr

structure JwtToken where
  claims : List (String × ClaimValue)
  key : String
  alg : String
  deriving DecidableEq, Repr

def lookupClaim (claims : List (String × ClaimValue)) (k : String) :
    Option ClaimValue :=
  (claims.find? fun p => p.1 == k).map (·.2)

/-- dict.update with one key: replace the value if the key is bound,
otherwise append the binding. -/
def setClaim (claims : List (String × ClaimValue)) (k : String) (v : ClaimValue) :
    List (String × ClaimValue) :=
  if (claims.find? fun p => p.1 == k).isSome then
    claims.map fun p => if p.1 == k then (k, v) else p
  else
    claims ++ [(k, v)]

def jwt_encode (claims : List (String × ClaimValue)) (key alg : String) : JwtToken :=
  ⟨claims, key, alg⟩

/-- jose registered-claim validation of sub: if present it must be a string. -/
def validate_sub (claims : List (String × ClaimValue)) : Option (List (String × ClaimValue)) :=
  match lookupClaim claims "sub" with
  | some (.str _) => some claims
  | some (.int _) => none
  | none => some claims

/-- jose jwt.decode: signature and algorithm check, then exp validation
(an exp claim must be an integer and not lie strictly in the past), then
sub validation. -/
def jwt_decode (t : JwtToken) (key : String) (algs : List String) (now : Int) :
    Option (List (String × ClaimValue)) :=
  if t.key == key && algs.contains t.alg then
    match lookupClaim t.claims "exp" with
    | some (.int e) => if e < now then none else validate_sub t.claims
    | some (.str _) => none
    | none => validate_sub t.claims
  else
    none

/-- create_access_token (jwt_helper.py lines 7-32): copy the payload, set exp
to now plus the given delta (default jwt_expiration_hours), sign. -/
def create_access_token (data : List (String × ClaimValue))
    (expires_delta : Option Int) (now : Int) : JwtToken :=
  let expire : Int :=
    match expires_delta with
    | some d => now + d
    | none => now + jwt_expiration_hours * 3600
  jwt_encode (setClaim data "exp" (.int expire)) jwt_secret_key jwt_algorithm

/-- verify_token (jwt_helper.py lines 35-57): decode with the configured key
and algorithm; reject a payload whose sub is absent; return the payload. -/
def verify_token (t : JwtToken) (now : Int) : Option (List (String × ClaimValue)) :=
  match jwt_decode t jwt_secret_key [jwt_algorithm] now with
  | none => none
  | some payload =>
      match lookupClaim payload "sub" with
      | none => none
      | some _ => some payload

/-- get_email_from_token (jwt_helper.py lines 77-90): the sub of a verified
payload.  After verify_token succeeds the sub is a string (jose rejects a
non-string sub), so the non-string branch is unreachable. -/
def get_email_from_token (t : JwtToken) (now : Int) : Option String :=
  match verify_token t now with
  | none => none
  | some payload =>
      match lookupClaim payload "sub" with
      | some (.str s) => some s
      | some (.int _) => none
      | none => none

/-! ## Field updates written by the operations

The three update_one calls of auth_service.py, as named functions on a
document (the set clauses of lines 105-115, 173-182 and 217-227). -/

def verifyUpdate (now : Int) (u : UserDoc) : UserDoc :=
  { u with
    is_verified := true
    verification_code := none
    verification_code_expires_at := none
    updated_at := now }

def resetInitUpdate (reset_token : String) (token_expires_at now : Int)
    (u : UserDoc) : UserDoc :=
  { u with
    password_reset_token := some reset_token
    password_reset_token_expires_at := some token_expires_at
    updated_at := now }

def resetConfirmUpdate (salt : Nat) (new_password : String) (now : Int)
    (u : UserDoc) : UserDoc :=
  { u with
    password_hash := hash_password salt new_password
    password_reset_token := none
    password_reset_token_expires_at := none
    updated_at := now }

/-! ## Service operation results

Each AuthService operation returns a dictionary with success: bool and, on
failure, a message; the ok payloads mirror the success dictionaries. -/

inductive Res (α : Type) where
  | err (message : String)
  | ok (value : α)
  deriving DecidableEq, Repr

/-- Success payload of register_user (user_id, an ObjectId drawn by the
store, is outside the model). -/
structure RegisterOk where
  email : String
  verification_code : String
  deriving DecidableEq, Repr

/-- Success payload of authenticate_user. -/
structure SignInOk where
  access_token : JwtToken
  token_type : String
  expires_in : Int
  email : String
  deriving DecidableEq, Repr

/-- Success payload of initiate_password_reset: the dictionary carries a
reset_token key only when the account exists, and a message in both cases. -/
structure ResetInitOk where
  reset_token : Option String
  message : String
  deriving DecidableEq, Repr

/-! ## AuthService operations (src/app/services/auth_service.py) -/

/-- The document built by register_user (auth_service.py lines 54-65). -/
def registerDoc (stream : Nat → Nat) (salt : Nat) (now : Int)
    (email password : String) (fullname avatar : Option String)
    (dob : Option Int) : UserDoc :=
  { email := email
    password_hash := hash_password salt password
    fullname := fullname
    avatar := avatar
    dob := dob
    is_verified := false
    verification_code := some (generate_verification_code stream)
    verification_code_expires_at :=
      some (now + verification_code_expiration_minutes * 60)
    password_reset_token := none
    password_reset_token_expires_at := none
    created_at := now
    updated_at := now }

/-- register_user (lines 27-74). -/
def register_user (stream : Nat → Nat) (salt : Nat) (now : Int)
    (store : List UserDoc) (email password : String)
    (fullname avatar : Option String) (dob : Option Int) :
    Res RegisterOk × List UserDoc :=
  match find_one store email with
  | some _ => (.err "User already exists", store)
  | none =>
      (.ok ⟨email, generate_verification_code stream⟩,
       insert_one store (registerDoc stream salt now email password fullname avatar dob))

/-- verify_email (lines 76-117). -/
def verify_email (now : Int) (store : List UserDoc)
    (email verification_code : String) : Res String × List UserDoc :=
  match find_one store email with
  | none => (.err "User not found", store)
  | some user =>
      if user.is_verified then
        (.err "User already verified", store)
      else if user.verification_code != some verification_code then
        (.err "Invalid verification code", store)
      else
        let expired : Bool :=
          match user.verification_code_expires_at with
          | some e => decide (now > e)
          | none => false
        if expired then
          (.err "Verification code expired", store)
        else
          (.ok "Email verified successfully",
           update_one store email (verifyUpdate now))

/-- authenticate_user (lines 119-150). -/
def authenticate_user (now : Int) (store : List UserDoc)
    (email password : String) : Res SignInOk × List UserDoc :=
  match find_one store email with
  | none => (.err "Invalid credentials", store)
  | some user =>
      if !user.is_verified then
        (.err "Email not verified", store)
      else if !verify_password password user.password_hash then
        (.err "Invalid credentials", store)
      else
        (.ok
          { access_token := create_access_token [("sub", .str email)] none now
            token_type := "bearer"
            expires_in := jwt_expiration_hours * 3600
            email := email },
         store)

/-- initiate_password_reset (lines 152-188). -/
def initiate_password_reset (stream : Nat → Nat) (now : Int)
    (store : List UserDoc) (email : String) : Res ResetInitOk × List UserDoc :=
  match find_one store email with
  | none =>
      (.ok ⟨none, "Password reset email sent if user exists"⟩, store)
  | some _ =>
      let reset_token := generate_reset_token stream
      let token_expires_at := now + password_reset_expiration_hours * 3600
      (.ok ⟨some reset_token, "Password reset email sent"⟩,
       update_one store email (resetInitUpdate reset_token token_expires_at now))

/-- confirm_password_reset (lines 190-229). -/
def confirm_password_reset (salt : Nat) (now : Int) (store : List UserDoc)
    (email reset_token new_password : String) : Res String × List UserDoc :=
  match find_one store email with
  | none => (.err "User not found", store)
  | some user =>
      if user.password_reset_token != some reset_token then
        (.err "Invalid reset token", store)
      else
        let expired : Bool :=
          match user.password_reset_token_expires_at with
          | some e => decide (now > e)
          | none => false
        if expired then
          (.err "Reset token expired", store)
        else
          (.ok "Password reset successfully",
           update_one store email (resetConfirmUpdate salt new_password now))

/-! ## Route layer (src/app/routes/auth_routes.py lines 131-150)

The password_reset handler calls initiate_password_reset, hands the token to
the notifier when one is present (no store effect), and always returns the
constant success body. -/

structure PasswordResetResponse where
  message : String
  deriving DecidableEq, Repr

def password_reset_route (stream : Nat → Nat) (now : Int)
    (store : List UserDoc) (email : String) :
    PasswordResetResponse × List UserDoc :=
  let r := initiate_password_reset stream now store email
  (⟨"Password reset email sent successfully"⟩, r.2)

/-! ## Operation sequences

One step of the Auth Engine: any of the five service operations, with its
external inputs (clock value, randomness stream, hashing salt). -/

inductive Op where
  | register (stream : Nat → Nat) (salt : Nat) (now : Int)
      (email password : String) (fullname avatar : Option String) (dob : Option Int)
  | verify (now : Int) (email verification_code : String)
  | signin (now : Int) (email password : String)
  | resetInit (stream : Nat → Nat) (now : Int) (email : String)
  | resetConfirm (salt : Nat) (now : Int) (email reset_token new_password : String)

def applyOp (store : List UserDoc) : Op → List UserDoc
  | .register stream salt now email password fullname avatar dob =>
      (register_user stream salt now store email password fullname avatar dob).2
  | .verify now email code => (verify_email now store email code).2
  | .signin now email password => (authenticate_user now store email password).2
  | .resetInit stream now email => (initiate_password_reset stream now store email).2
  | .resetConfirm salt now email tok newp =>
      (confirm_password_reset salt now store email tok newp).2

def runOps (store : List UserDoc) : List Op → List UserDoc
  | [] => store
  | op :: rest => runOps (applyOp store op) rest

/-! ## Store lemmas -/

lemma find_one_email {s : List UserDoc} {e : String} {u : UserDoc}
    (h : find_one s e = some u) : u.email = e := by
  have hp := List.find?_some h
  simpa using hp

lemma find_one_append_left {s : List UserDoc} {e : String} {u : UserDoc}
    (h : find_one s e = some u) (t : List UserDoc) :
    find_one (s ++ t) e = some u := by
  induction s with
  | nil => simp [find_one] at h
  | cons v rest ih =>
      rw [find_one] at h ⊢
      rw [List.find?_cons] at h
      rw [show v :: rest ++ t = v :: (rest ++ t) from rfl, List.find?_cons]
      cases hv : (v.email == e) with
      | true => simpa [hv] using h
      | false =>
          simp only [hv] at h ⊢
          exact ih h

lemma find_one_update_self {e : String} {f : UserDoc → UserDoc}
    (hf : ∀ u, (f u).email = u.email) (s : List UserDoc) :
    find_one (update_one s e f) e = (find_one s e).map f := by
  induction s with
  | nil => rfl
  | cons v rest ih =>
      rw [find_one, update_one]
      cases hv : (v.email == e) with
      | true =>
          simp only [hv, if_true]
          rw [List.find?_cons]
          have : ((f v).email == e) = true := by rw [hf v]; exact hv
          simp [find_one, List.find?_cons, hv, this]
      | false =>
          simp only [hv, Bool.false_eq_true, if_false]
          rw [List.find?_cons]
          simp only [hv]
          rw [find_one] at ih
          simp [find_one, List.find?_cons, hv, ih]

lemma find_one_update_other {e e' : String} {f : UserDoc → UserDoc}
    (hf : ∀ u, (f u).email = u.email) (hne : e' ≠ e) (s : List UserDoc) :
    find_one (update_one s e f) e' = find_one s e' := by
  induction s with
  | nil => rfl
  | cons v rest ih =>
      rw [find_one, update_one]
      cases hv : (v.email == e) with
      | true =>
          simp only [hv, if_true]
          have hv' : v.email = e := by simpa using hv
          have h1 : ((f v).email == e') = false := by
            rw [hf v, hv']
            simp [Ne.symm hne]
          have h2 : (v.email == e') = false := by
            rw [hv']
            simp [Ne.symm hne]
          simp [find_one, List.find?_cons, h1, h2]
      | false =>
          simp only [hv, Bool.false_eq_true, if_false]
          rw [find_one] at ih
          simp [find_one, List.find?_cons, ih]

lemma mem_update_one {s : List UserDoc} {e : String} {f : UserDoc → UserDoc}
    {w : UserDoc} (h : w ∈ update_one s e f) :
    w ∈ s ∨ ∃ u, u ∈ s ∧ w = f u := by
  induction s with
  | nil => simp [update_one] at h
  | cons v rest ih =>
      rw [update_one] at h
      by_cases hv : (v.email == e) = true
      · rw [if_pos hv] at h
        rcases List.mem_cons.mp h with h1 | h1
        · exact Or.inr ⟨v, List.mem_cons_self .., h1⟩
        · exact Or.inl (List.mem_cons_of_mem _ h1)
      · rw [if_neg hv] at h
        rcases List.mem_cons.mp h with h1 | h1
        · exact Or.inl (h1 ▸ List.mem_cons_self ..)
        · rcases ih h1 with h2 | ⟨u, hu, hw⟩
          · exact Or.inl (List.mem_cons_of_mem _ h2)
          · exact Or.inr ⟨u, List.mem_cons_of_mem _ hu, hw⟩

lemma countEmail_update (e' : String) {e : String} {f : UserDoc → UserDoc}
    (hf : ∀ u, (f u).email = u.email) (s : List UserDoc) :
    countEmail (update_one s e f) e' = countEmail s e' := by
  induction s with
  | nil => rfl
  | cons v rest ih =>
      rw [update_one]
      by_cases hv : (v.email == e) = true
      · rw [if_pos hv]
        have : ((f v).email == e') = (v.email == e') := by rw [hf v]
        simp [countEmail, List.filter_cons, this]
        split <;> simp [countEmail]
      · rw [if_neg hv]
        simp only [countEmail, List.filter_cons] at ih ⊢
        split <;> simp [ih]

lemma countEmail_append (s : List UserDoc) (d : UserDoc) (e : String) :
    countEmail (s ++ [d]) e =
      countEmail s e + (if d.email == e then 1 else 0) := by
  simp only [countEmail, List.filter_append]
  split <;> simp [List.filter_cons, *]

lemma find_one_none_countEmail {s : List UserDoc} {e : String}
    (h : find_one s e = none) : countEmail s e = 0 := by
  rw [find_one, List.find?_eq_none] at h
  simp only [countEmail, List.length_eq_zero, List.filter_eq_nil_iff]
  intro u hu
  exact h u hu

/-! ## Shapes of the stores the operations produce -/

lemma register_user_found {store : List UserDoc} {email : String} {u : UserDoc}
    (h : find_one store email = some u) (stream : Nat → Nat) (salt : Nat)
    (now : Int) (password : String) (fullname avatar : Option String)
    (dob : Option Int) :
    register_user stream salt now store email password fullname avatar dob =
      (.err "User already exists", store) := by
  rw [register_user, h]

lemma register_user_absent {store : List UserDoc} {email : String}
    (h : find_one store email = none) (stream : Nat → Nat) (salt : Nat)
    (now : Int) (password : String) (fullname avatar : Option String)
    (dob : Option Int) :
    register_user stream salt now store email password fullname avatar dob =
      (.ok ⟨email, generate_verification_code stream⟩,
       store ++ [registerDoc stream salt now email password fullname avatar dob]) := by
  rw [register_user, h]
  rfl

lemma verify_email_snd (now : Int) (store : List UserDoc) (email code : String) :
    (verify_email now store email code).2 = store ∨
    (verify_email now store email code).2 =
      update_one store email (verifyUpdate now) := by
  rw [verify_email]
  split
  · exact Or.inl rfl
  · split
    · exact Or.inl rfl
    · split
      · exact Or.inl rfl
      · split <;> (dsimp only; split)
        · exact Or.inl rfl
        · exact Or.inr rfl
        · exact Or.inl rfl
        · exact Or.inr rfl

lemma authenticate_user_snd (now : Int) (store : List UserDoc)
    (email password : String) :
    (authenticate_user now store email password).2 = store := by
  rw [authenticate_user]
  split
  · rfl
  · split
    · rfl
    · split
      · rfl
      · rfl

lemma initiate_password_reset_snd (stream : Nat → Nat) (now : Int)
    (store : List UserDoc) (email : String) :
    (initiate_password_reset stream now store email).2 = store ∨
    (initiate_password_reset stream now store email).2 =
      update_one store email
        (resetInitUpdate (generate_reset_token stream)
          (now + password_reset_expiration_hours * 3600) now) := by
  rw [initiate_password_reset]
  split
  · exact Or.inl rfl
  · exact Or.inr rfl

lemma verifyUpdate_email (now : Int) (u : UserDoc) :
    (verifyUpdate now u).email = u.email := rfl

lemma resetInitUpdate_email (tok : String) (te now : Int) (u : UserDoc) :
    (resetInitUpdate tok te now u).email = u.email := rfl

lemma resetConfirmUpdate_email (salt : Nat) (newp : String) (now : Int)
    (u : UserDoc) : (resetConfirmUpdate salt newp now u).email = u.email := rfl

lemma verify_email_verified {s : List UserDoc} {e : String} {u : UserDoc}
    (hfind : find_one s e = some u) (hv : u.is_verified = true)
    (now : Int) (code : String) :
    verify_email now s e code = (.err "User already verified", s) := by
  rw [verify_email, hfind]
  simp [hv]

lemma confirm_password_reset_snd (salt : Nat) (now : Int)
    (store : List UserDoc) (email tok newp : String) :
    (confirm_password_reset salt now store email tok newp).2 = store ∨
    (confirm_password_reset salt now store email tok newp).2 =
      update_one store email (resetConfirmUpdate salt newp now) := by
  rw [confirm_password_reset]
  split
  · exact Or.inl rfl
  · split
    · exact Or.inl rfl
    · split <;> (dsimp only; split)
      · exact Or.inl rfl
      · exact Or.inr rfl
      · exact Or.inl rfl
      · exact Or.inr rfl

/-! ## Invariants over operation sequences -/

/-- At most one document per email. -/
def emailUnique (s : List UserDoc) : Prop := ∀ e, countEmail s e ≤ 1

/-- The verification code field is populated exactly on the unverified
accounts. -/
def codeInv (s : List UserDoc) : Prop :=
  ∀ u ∈ s, u.verification_code ≠ none ↔ u.is_verified = false

lemma emailUnique_applyOp {s : List UserDoc} (hs : emailUnique s) (op : Op) :
    emailUnique (applyOp s op) := by
  cases op with
  | register stream salt now email password fullname avatar dob =>
      rw [applyOp]
      cases hfind : find_one s email with
      | some u => rw [register_user_found hfind]; exact hs
      | none =>
          rw [register_user_absent hfind]
          intro e
          rw [show ((Res.ok ⟨email, generate_verification_code stream⟩ :
                Res RegisterOk),
              s ++ [registerDoc stream salt now email password fullname avatar dob]).2 =
              s ++ [registerDoc stream salt now email password fullname avatar dob] from rfl]
          rw [countEmail_append]
          by_cases he : email = e
          · subst he
            rw [find_one_none_countEmail hfind]
            simp [registerDoc]
          · have : ((registerDoc stream salt now email password fullname avatar dob).email
                == e) = false := by
              simp [registerDoc, he]
            rw [this]
            simpa using hs e
  | verify now email code =>
      rw [applyOp]
      rcases verify_email_snd now s email code with h | h <;> rw [h]
      · exact hs
      · intro e
        rw [countEmail_update e (verifyUpdate_email now)]
        exact hs e
  | signin now email password =>
      rw [applyOp, authenticate_user_snd]
      exact hs
  | resetInit stream now email =>
      rw [applyOp]
      rcases initiate_password_reset_snd stream now s email with h | h <;> rw [h]
      · exact hs
      · intro e
        rw [countEmail_update e (resetInitUpdate_email _ _ now)]
        exact hs e
  | resetConfirm salt now email tok newp =>
      rw [applyOp]
      rcases confirm_password_reset_snd salt now s email tok newp with h | h <;> rw [h]
      · exact hs
      · intro e
        rw [countEmail_update e (resetConfirmUpdate_email salt newp now)]
        exact hs e

lemma emailUnique_runOps {s : List UserDoc} (hs : emailUnique s)
    (ops : List Op) : emailUnique (runOps s ops) := by
  induction ops generalizing s with
  | nil => exact hs
  | cons op rest ih =>
      rw [runOps]
      exact ih (emailUnique_applyOp hs op)

lemma emailUnique_nil : emailUnique ([] : List UserDoc) := by
  intro e
  simp [countEmail]

lemma codeInv_applyOp {s : List UserDoc} (hs : codeInv s) (op : Op) :
    codeInv (applyOp s op) := by
  cases op with
  | register stream salt now email password fullname avatar dob =>
      rw [applyOp]
      cases hfind : find_one s email with
      | some u => rw [register_user_found hfind]; exact hs
      | none =>
          rw [register_user_absent hfind]
          intro u hu
          rcases List.mem_append.mp hu with h | h
          · exact hs u h
          · have : u = registerDoc stream salt now email password fullname avatar dob := by
              simpa using h
            subst this
            simp [registerDoc]
  | verify now email code =>
      rw [applyOp]
      rcases verify_email_snd now s email code with h | h <;> rw [h]
      · exact hs
      · intro u hu
        rcases mem_update_one hu with h1 | ⟨v, hv, rfl⟩
        · exact hs u h1
        · simp [verifyUpdate]
  | signin now email password =>
      rw [applyOp, authenticate_user_snd]
      exact hs
  | resetInit stream now email =>
      rw [applyOp]
      rcases initiate_password_reset_snd stream now s email with h | h <;> rw [h]
      · exact hs
      · intro u hu
        rcases mem_update_one hu with h1 | ⟨v, hv, rfl⟩
        · exact hs u h1
        · simpa [resetInitUpdate] using hs v hv
  | resetConfirm salt now email tok newp =>
      rw [applyOp]
      rcases confirm_password_reset_snd salt now s email tok newp with h | h <;> rw [h]
      · exact hs
      · intro u hu
        rcases mem_update_one hu with h1 | ⟨v, hv, rfl⟩
        · exact hs u h1
        · simpa [resetConfirmUpdate] using hs v hv

lemma codeInv_runOps {s : List UserDoc} (hs : codeInv s) (ops : List Op) :
    codeInv (runOps s ops) := by
  induction ops generalizing s with
  | nil => exact hs
  | cons op rest ih =>
      rw [runOps]
      exact ih (codeInv_applyOp hs op)

lemma codeInv_nil : codeInv ([] : List UserDoc) := by
  intro u hu
  simp at hu

lemma verified_persists_applyOp {s : List UserDoc} {e : String} {u : UserDoc}
    (hfind : find_one s e = some u) (hv : u.is_verified = true) (op : Op) :
    ∃ w, find_one (applyOp s op) e = some w ∧ w.is_verified = true := by
  cases op with
  | register stream salt now email2 password fullname avatar dob =>
      rw [applyOp]
      cases hf2 : find_one s email2 with
      | some v => rw [register_user_found hf2]; exact ⟨u, hfind, hv⟩
      | none =>
          rw [register_user_absent hf2]
          exact ⟨u, find_one_append_left hfind _, hv⟩
  | verify now email2 code =>
      rw [applyOp]
      by_cases he : e = email2
      · subst he
        rw [verify_email_verified hfind hv]
        exact ⟨u, hfind, hv⟩
      · rcases verify_email_snd now s email2 code with h | h <;> rw [h]
        · exact ⟨u, hfind, hv⟩
        · rw [find_one_update_other (verifyUpdate_email now) he]
          exact ⟨u, hfind, hv⟩
  | signin now email2 password =>
      rw [applyOp, authenticate_user_snd]
      exact ⟨u, hfind, hv⟩
  | resetInit stream now email2 =>
      rw [applyOp]
      rcases initiate_password_reset_snd stream now s email2 with h | h <;> rw [h]
      · exact ⟨u, hfind, hv⟩
      · by_cases he : e = email2
        · subst he
          rw [find_one_update_self (resetInitUpdate_email _ _ now), hfind]
          exact ⟨_, rfl, by simpa [resetInitUpdate] using hv⟩
        · rw [find_one_update_other (resetInitUpdate_email _ _ now) he]
          exact ⟨u, hfind, hv⟩
  | resetConfirm salt now email2 tok newp =>
      rw [applyOp]
      rcases confirm_password_reset_snd salt now s email2 tok newp with h | h <;> rw [h]
      · exact ⟨u, hfind, hv⟩
      · by_cases he : e = email2
        · subst he
          rw [find_one_update_self (resetConfirmUpdate_email salt newp now), hfind]
          exact ⟨_, rfl, by simpa [resetConfirmUpdate] using hv⟩
        · rw [find_one_update_other (resetConfirmUpdate_email salt newp now) he]
          exact ⟨u, hfind, hv⟩

lemma verified_persists_runOps {s : List UserDoc} {e : String} {u : UserDoc}
    (hfind : find_one s e = some u) (hv : u.is_verified = true) (ops : List Op) :
    ∃ w, find_one (runOps s ops) e = some w ∧ w.is_verified = true := by
  induction ops generalizing s u with
  | nil => exact ⟨u, hfind, hv⟩
  | cons op rest ih =>
      obtain ⟨w, hw, hwv⟩ := verified_persists_applyOp hfind hv op
      rw [runOps]
      exact ih hw hwv

/-! ## Case analyses of the operations -/

lemma verify_email_cases (now : Int) (store : List UserDoc)
    (email code : String) :
    (∃ m, verify_email now store email code = (.err m, store)) ∨
    (∃ u, find_one store email = some u ∧ u.is_verified = false ∧
      u.verification_code = some code ∧
      verify_email now store email code =
        (.ok "Email verified successfully",
         update_one store email (verifyUpdate now))) := by
  cases hfind : find_one store email with
  | none => exact Or.inl ⟨"User not found", by rw [verify_email, hfind]⟩
  | some u =>
      by_cases hv : u.is_verified = true
      · exact Or.inl ⟨"User already verified", by rw [verify_email, hfind]; simp [hv]⟩
      · have hv' : u.is_verified = false := by simpa using hv
        by_cases hc : u.verification_code = some code
        · cases hce : u.verification_code_expires_at with
          | none =>
              refine Or.inr ⟨u, rfl, hv', hc, ?_⟩
              rw [verify_email, hfind]
              simp [hv', hc, hce]
          | some e =>
              by_cases hex : now > e
              · exact Or.inl ⟨"Verification code expired",
                  by rw [verify_email, hfind]; simp [hv', hc, hce, hex]⟩
              · refine Or.inr ⟨u, rfl, hv', hc, ?_⟩
                rw [verify_email, hfind]
                simp [hv', hc, hce, hex]
        · exact Or.inl ⟨"Invalid verification code",
            by rw [verify_email, hfind]; simp [hv, hc]⟩

lemma confirm_password_reset_cases (salt : Nat) (now : Int)
    (store : List UserDoc) (email tok newp : String) :
    (∃ m, confirm_password_reset salt now store email tok newp = (.err m, store)) ∨
    (∃ u, find_one store email = some u ∧ u.password_reset_token = some tok ∧
      confirm_password_reset salt now store email tok newp =
        (.ok "Password reset successfully",
         update_one store email (resetConfirmUpdate salt newp now))) := by
  cases hfind : find_one store email with
  | none => exact Or.inl ⟨"User not found", by rw [confirm_password_reset, hfind]⟩
  | some u =>
      by_cases hc : u.password_reset_token = some tok
      · cases hce : u.password_reset_token_expires_at with
        | none =>
            refine Or.inr ⟨u, rfl, hc, ?_⟩
            rw [confirm_password_reset, hfind]
            simp [hc, hce]
        | some e =>
            by_cases hex : now > e
            · exact Or.inl ⟨"Reset token expired",
                by rw [confirm_password_reset, hfind]; simp [hc, hce, hex]⟩
            · refine Or.inr ⟨u, rfl, hc, ?_⟩
              rw [confirm_password_reset, hfind]
              simp [hc, hce, hex]
      · exact Or.inl ⟨"Invalid reset token",
          by rw [confirm_password_reset, hfind]; simp [hc]⟩

lemma initiate_password_reset_ok (stream : Nat → Nat) (now : Int)
    (store : List UserDoc) (email : String) :
    ∃ v, (initiate_password_reset stream now store email).1 = .ok v := by
  rw [initiate_password_reset]
  split
  · exact ⟨_, rfl⟩
  · exact ⟨_, rfl⟩

/-! ## Concrete fixtures -/

/-- The constant PRNG stream: every chosen index is zero, so the generated
verification code is the string of six zero digits. -/
def zeroStream : Nat → Nat := fun _ => 0

/-- The store obtained by one successful registration at time zero. -/
def demoStore : List UserDoc :=
  (register_user zeroStream 0 0 [] "a@x.com" "password123" none none none).2

/-- demoStore after the matching email verification at time zero. -/
def demoVerified : List UserDoc :=
  (verify_email 0 demoStore "a@x.com" "000000").2

/-! ## Claims -/

/-- C1: register_user answers the conflict error and leaves the store
untouched whenever a document with the requested email already exists;
every store reachable from the empty store by any sequence of engine
operations holds at most one document per email; and registering the same
email twice from the empty store makes the second call fail with the
conflict error while exactly one record for that email remains. -/
theorem C1_register_exactly_one_per_email :
    (∀ stream salt now store email password fullname avatar dob u,
      find_one store email = some u →
        register_user stream salt now store email password fullname avatar dob =
          (.err "User already exists", store))
    ∧ (∀ ops e, countEmail (runOps [] ops) e ≤ 1)
    ∧ (∀ s1 t1 n1 s2 t2 n2 email p1 p2 f1 a1 b1 f2 a2 b2,
        register_user s2 t2 n2 (register_user s1 t1 n1 [] email p1 f1 a1 b1).2
            email p2 f2 a2 b2 =
          (.err "User already exists",
           (register_user s1 t1 n1 [] email p1 f1 a1 b1).2)
        ∧ countEmail (register_user s1 t1 n1 [] email p1 f1 a1 b1).2 email = 1) := by
  refine ⟨?_, ?_, ?_⟩
  · intro stream salt now store email password fullname avatar dob u h
    exact register_user_found h stream salt now password fullname avatar dob
  · intro ops e
    exact emailUnique_runOps emailUnique_nil ops e
  · intro s1 t1 n1 s2 t2 n2 email p1 p2 f1 a1 b1 f2 a2 b2
    have h0 : find_one ([] : List UserDoc) email = none := rfl
    rw [register_user_absent h0]
    have hfind :
        find_one (([] : List UserDoc) ++ [registerDoc s1 t1 n1 email p1 f1 a1 b1])
          email = some (registerDoc s1 t1 n1 email p1 f1 a1 b1) := by
      simp [find_one, registerDoc]
    refine ⟨register_user_found hfind s2 t2 n2 p2 f2 a2 b2, ?_⟩
    simp [countEmail, registerDoc]

/-- Witness for C1 at a concrete input: registering the already registered
email of demoStore fails with the conflict error and returns the store
unchanged. -/
theorem C1_register_exactly_one_per_email_witness :
    register_user zeroStream 0 0 demoStore "a@x.com" "pw2pw2pw2" none none none =
      (.err "User already exists", demoStore) :=
  C1_register_exactly_one_per_email.1 zeroStream 0 0 demoStore "a@x.com"
    "pw2pw2pw2" none none none
    (registerDoc zeroStream 0 0 "a@x.com" "password123" none none none)
    (by decide)

/-- C2: a successful verify_email marks the account verified and clears the
verification code and its expiry to none; every later verify_email call on
that account, after any interleaving of engine operations and with any code
(the consumed one included), fails with the already-verified error; and a
call whose stored code is past its expiry instant never succeeds. -/
theorem C2_verification_code_single_use :
    (∀ now store email code r store',
      verify_email now store email code = (.ok r, store') →
        (∃ u, find_one store' email = some u ∧ u.is_verified = true ∧
          u.verification_code = none ∧ u.verification_code_expires_at = none)
        ∧ ∀ ops now2 code2,
            verify_email now2 (runOps store' ops) email code2 =
              (.err "User already verified", runOps store' ops))
    ∧ (∀ now store email code u e,
        find_one store email = some u →
        u.verification_code_expires_at = some e → e < now →
        ∀ r s', verify_email now store email code ≠ (.ok r, s')) := by
  constructor
  · intro now store email code r store' h
    rcases verify_email_cases now store email code with ⟨m, hm⟩ | ⟨u, hfind, hv, hc, hok⟩
    · rw [hm] at h
      simp at h
    · rw [hok] at h
      have hstore : update_one store email (verifyUpdate now) = store' :=
        congrArg Prod.snd h
      have hfind' : find_one store' email = some (verifyUpdate now u) := by
        rw [← hstore, find_one_update_self (verifyUpdate_email now), hfind]
        rfl
      refine ⟨⟨verifyUpdate now u, hfind', rfl, rfl, rfl⟩, ?_⟩
      intro ops now2 code2
      obtain ⟨w, hw, hwv⟩ := verified_persists_runOps hfind' rfl ops
      exact verify_email_verified hw hwv now2 code2
  · intro now store email code u e hfind hce hlt r s' h
    by_cases hv : u.is_verified = true
    · rw [verify_email_verified hfind hv] at h
      simp at h
    · have hv' : u.is_verified = false := by simpa using hv
      by_cases hc : u.verification_code = some code
      · have hexp : verify_email now store email code =
            (.err "Verification code expired", store) := by
          rw [verify_email, hfind]
          simp [hv', hc, hce, show now > e from hlt]
        rw [hexp] at h
        simp at h
      · have hinv : verify_email now store email code =
            (.err "Invalid verification code", store) := by
          rw [verify_email, hfind]
          simp [hv, hc]
        rw [hinv] at h
        simp at h

/-- Witness for C2 at a concrete input: the successful verification of
demoStore leaves the expected verified record and every later call fails. -/
theorem C2_verification_code_single_use_witness :
    (∃ u, find_one demoVerified "a@x.com" = some u ∧ u.is_verified = true ∧
      u.verification_code = none ∧ u.verification_code_expires_at = none)
    ∧ ∀ ops now2 code2,
        verify_email now2 (runOps demoVerified ops) "a@x.com" code2 =
          (.err "User already verified", runOps demoVerified ops) :=
  C2_verification_code_single_use.1 0 demoStore "a@x.com" "000000"
    "Email verified successfully" demoVerified (by decide)

/-- C3: on an unverified account, authenticate_user answers the
not-verified error for every submitted password, the correct one included,
and leaves the store untouched; the error result carries no access token
(the err constructor holds only a message), so no token is issued. -/
theorem C3_unverified_cannot_sign_in :
    ∀ now store email password u,
      find_one store email = some u → u.is_verified = false →
      authenticate_user now store email password =
        (.err "Email not verified", store) := by
  intro now store email password u hfind hv
  rw [authenticate_user, hfind]
  simp [hv]

/-- Witness for C3 at a concrete input: the unverified account of demoStore
cannot sign in even with its correct password. -/
theorem C3_unverified_cannot_sign_in_witness :
    authenticate_user 0 demoStore "a@x.com" "password123" =
      (.err "Email not verified", demoStore) :=
  C3_unverified_cannot_sign_in 0 demoStore "a@x.com" "password123"
    (registerDoc zeroStream 0 0 "a@x.com" "password123" none none none)
    (by decide) (by decide)

/-- C5: initiate_password_reset reports success for every email: on an
absent account it performs no store change and still returns an ok result;
on an existing account it stores the freshly generated reset token with its
expiry; and the HTTP route handler returns the one constant success body
for every email, so callers cannot distinguish the two cases. -/
theorem C5_reset_initiate_always_succeeds :
    (∀ stream now store email,
      find_one store email = none →
        initiate_password_reset stream now store email =
          (.ok ⟨none, "Password reset email sent if user exists"⟩, store))
    ∧ (∀ stream now store email u, find_one store email = some u →
        (initiate_password_reset stream now store email).1 =
          .ok ⟨some (generate_reset_token stream), "Password reset email sent"⟩
        ∧ ∃ w, find_one (initiate_password_reset stream now store email).2 email =
            some w
          ∧ w.password_reset_token = some (generate_reset_token stream)
          ∧ w.password_reset_token_expires_at =
              some (now + password_reset_expiration_hours * 3600))
    ∧ (∀ stream now store email,
        (password_reset_route stream now store email).1 =
          ⟨"Password reset email sent successfully"⟩) := by
  refine ⟨?_, ?_, ?_⟩
  · intro stream now store email h
    rw [initiate_password_reset, h]
  · intro stream now store email u hfind
    rw [initiate_password_reset, hfind]
    refine ⟨rfl, ?_⟩
    refine ⟨resetInitUpdate (generate_reset_token stream)
      (now + password_reset_expiration_hours * 3600) now u, ?_, rfl, rfl⟩
    show find_one (update_one store email _) email = _
    rw [find_one_update_self (resetInitUpdate_email _ _ now), hfind]
    rfl
  · intro stream now store email
    rfl

/-- Witness for C5 at a concrete input: initiating a reset for an email
absent from demoStore changes nothing and still reports success. -/
theorem C5_reset_initiate_always_succeeds_witness :
    initiate_password_reset zeroStream 0 demoStore "nobody@x.com" =
      (.ok ⟨none, "Password reset email sent if user exists"⟩, demoStore) :=
  C5_reset_initiate_always_succeeds.1 zeroStream 0 demoStore "nobody@x.com"
    (by decide)

/-- C7 claim as stated is false on the code: within reach of one concrete
store, sign-in on an unverified account answers the not-verified message
while sign-in on an absent account answers the invalid-credentials message,
so the three failure cases do not collapse into one merged outcome. -/
theorem C7_counterexample :
    (authenticate_user 0 demoStore "a@x.com" "password123").1 =
      .err "Email not verified"
    ∧ (authenticate_user 0 demoStore "nobody@x.com" "password123").1 =
      .err "Invalid credentials"
    ∧ "Email not verified" ≠ "Invalid credentials" := by
  refine ⟨by decide, by decide, by decide⟩

/-- C7 amended: authenticate_user merges only the absent-account and the
wrong-password failures into the invalid-credentials outcome; an unverified
account receives the distinct not-verified outcome. -/
theorem C7_amended_sign_in_failure_merging :
    (∀ now store email password,
      find_one store email = none →
        (authenticate_user now store email password).1 = .err "Invalid credentials")
    ∧ (∀ now store email password u,
        find_one store email = some u → u.is_verified = true →
        verify_password password u.password_hash = false →
        (authenticate_user now store email password).1 = .err "Invalid credentials")
    ∧ (∀ now store email password u,
        find_one store email = some u → u.is_verified = false →
        (authenticate_user now store email password).1 = .err "Email not verified") := by
  refine ⟨?_, ?_, ?_⟩
  · intro now store email password h
    rw [authenticate_user, h]
  · intro now store email password u hfind hv hp
    rw [authenticate_user, hfind]
    simp [hv, hp]
  · intro now store email password u hfind hv
    rw [authenticate_user, hfind]
    simp [hv]

/-- Witness for the amended C7 at a concrete input: an absent account
yields the invalid-credentials outcome. -/
theorem C7_amended_sign_in_failure_merging_witness :
    (authenticate_user 0 demoStore "nobody@x.com" "pw").1 =
      .err "Invalid credentials" :=
  C7_amended_sign_in_failure_merging.1 0 demoStore "nobody@x.com" "pw"
    (by decide)

/-- C6: confirm_password_reset fails with the expired error when the stored
token matches but its expiry instant lies in the past, fails with the
invalid-token error when the presented token differs from the stored one
(both without touching the store), and on success stores the hash of the
new password, clears both reset fields to none, makes every password other
than the new one fail authentication, and makes the new password
authenticate whenever the account is verified. -/
theorem C6_confirm_password_reset_contract :
    (∀ salt now store email tok newp u e,
      find_one store email = some u → u.password_reset_token = some tok →
      u.password_reset_token_expires_at = some e → e < now →
      confirm_password_reset salt now store email tok newp =
        (.err "Reset token expired", store))
    ∧ (∀ salt now store email tok newp u,
        find_one store email = some u → u.password_reset_token ≠ some tok →
        confirm_password_reset salt now store email tok newp =
          (.err "Invalid reset token", store))
    ∧ (∀ salt now store email tok newp r store',
        confirm_password_reset salt now store email tok newp = (.ok r, store') →
        ∃ w, find_one store' email = some w
          ∧ w.password_hash = hash_password salt newp
          ∧ w.password_reset_token = none
          ∧ w.password_reset_token_expires_at = none
          ∧ (∀ oldp now2, oldp ≠ newp →
              ∀ v, (authenticate_user now2 store' email oldp).1 ≠ .ok v)
          ∧ (w.is_verified = true → ∀ now2,
              ∃ v, (authenticate_user now2 store' email newp).1 = .ok v)) := by
  refine ⟨?_, ?_, ?_⟩
  · intro salt now store email tok newp u e hfind htok hce hlt
    rw [confirm_password_reset, hfind]
    simp [htok, hce, show now > e from hlt]
  · intro salt now store email tok newp u hfind htok
    rw [confirm_password_reset, hfind]
    simp [htok]
  · intro salt now store email tok newp r store' h
    rcases confirm_password_reset_cases salt now store email tok newp with
      ⟨m, hm⟩ | ⟨u, hfind, htok, hok⟩
    · rw [hm] at h
      simp at h
    · rw [hok] at h
      have hstore :
          update_one store email (resetConfirmUpdate salt newp now) = store' :=
        congrArg Prod.snd h
      have hfind' :
          find_one store' email = some (resetConfirmUpdate salt newp now u) := by
        rw [← hstore, find_one_update_self (resetConfirmUpdate_email salt newp now),
          hfind]
        rfl
      refine ⟨resetConfirmUpdate salt newp now u, hfind', rfl, rfl, rfl, ?_, ?_⟩
      · intro oldp now2 hne v hv
        rw [authenticate_user, hfind'] at hv
        cases hb : (resetConfirmUpdate salt newp now u).is_verified with
        | false => simp [hb] at hv
        | true =>
            have hvp : verify_password oldp
                (resetConfirmUpdate salt newp now u).password_hash = false := by
              simp [resetConfirmUpdate, verify_password, hash_password, hne]
            simp [hb, hvp] at hv
      · intro hver now2
        refine ⟨⟨create_access_token [("sub", .str email)] none now2, "bearer",
          jwt_expiration_hours * 3600, email⟩, ?_⟩
        rw [authenticate_user, hfind']
        have hvp : verify_password newp
            (resetConfirmUpdate salt newp now u).password_hash = true := by
          simp [resetConfirmUpdate, verify_password, hash_password]
        simp [hver, hvp]

/-- Witness for C6 at a concrete input: on the verified demo account, whose
stored reset token is none, presenting any token fails with the
invalid-token error and the store is unchanged. -/
theorem C6_confirm_password_reset_contract_witness :
    confirm_password_reset 0 0 demoVerified "a@x.com" "sometoken" "newpassword1" =
      (.err "Invalid reset token", demoVerified) :=
  C6_confirm_password_reset_contract.2.1 0 0 demoVerified "a@x.com" "sometoken"
    "newpassword1"
    (verifyUpdate 0 (registerDoc zeroStream 0 0 "a@x.com" "password123" none none none))
    (by decide) (by decide)

/-- Boolean form of the condition claimed by C8 to govern the code field:
a verification is pending (account unverified) and the code is not yet
expired at the given instant. -/
def pendingNotExpired (u : UserDoc) (now : Int) : Bool :=
  !u.is_verified &&
    (match u.verification_code_expires_at with
     | some e => decide (now ≤ e)
     | none => true)

/-- The C8 claim, as stated, for one store and one instant: the
verification code field is populated exactly when a verification is pending
and not yet expired. -/
def claimC8 (store : List UserDoc) (now : Int) : Prop :=
  ∀ u ∈ store, u.verification_code ≠ none ↔ pendingNotExpired u now = true

/-- C8 as stated is false on the code: in the store reached by one
registration at time 0 (code expiry at 900 seconds), at time 901 the code
is expired yet the verification_code field still holds the code — no
operation clears an expired code. -/
theorem C8_counterexample :
    ¬ claimC8 (runOps []
      [.register zeroStream 0 0 "a@x.com" "password123" none none none]) 901 := by
  unfold claimC8
  decide

/-- C8 amended: in every store reachable from the empty store by engine
operations, the verification_code field is non-null exactly when the
account is not yet verified; successful verification clears it, but expiry
alone does not — an expired pending code stays stored (and is never
accepted, by C2). -/
theorem C8_amended_code_field_iff_unverified :
    ∀ ops, ∀ u ∈ runOps [] ops,
      (u.verification_code ≠ none ↔ u.is_verified = false) := by
  intro ops
  exact codeInv_runOps codeInv_nil ops

/-- Witness for the amended C8 at a concrete input: the freshly registered
demo document is unverified and carries a code. -/
theorem C8_amended_code_field_iff_unverified_witness :
    (registerDoc zeroStream 0 0 "a@x.com" "password123" none none none).verification_code
        ≠ none
      ↔ (registerDoc zeroStream 0 0 "a@x.com" "password123" none none none).is_verified
        = false :=
  C8_amended_code_field_iff_unverified
    [.register zeroStream 0 0 "a@x.com" "password123" none none none]
    (registerDoc zeroStream 0 0 "a@x.com" "password123" none none none)
    (by decide)

/-- C9 concerns the randomness source: the code draws its secrets from the
Python random module (Mersenne Twister), not from a cryptographically
secure source.  In the embedding the PRNG is its stream of chosen indices,
and each generated secret is a pure function of that stream: two runs whose
streams agree on the consumed prefix give identical secrets, and the
constant stream gives the reproducible code of six zero digits — the
outputs are fully determined by PRNG state, not independent draws. -/
theorem C9_secrets_determined_by_prng_state :
    (∀ f g : Nat → Nat, (∀ i, i < 6 → f i = g i) →
      generate_verification_code f = generate_verification_code g)
    ∧ (∀ f g : Nat → Nat, (∀ i, i < 32 → f i = g i) →
      generate_reset_token f = generate_reset_token g)
    ∧ generate_verification_code zeroStream = "000000" := by
  refine ⟨?_, ?_, by decide⟩
  · intro f g hfg
    unfold generate_verification_code
    congr 1
    apply List.map_congr_left
    intro i hi
    rw [hfg i (List.mem_range.mp hi)]
  · intro f g hfg
    unfold generate_reset_token
    congr 1
    apply List.map_congr_left
    intro i hi
    rw [hfg i (List.mem_range.mp hi)]

/-- Witness for C9 at a concrete input: two distinct streams agreeing on
the first six indices generate the same verification code. -/
theorem C9_secrets_determined_by_prng_state_witness :
    generate_verification_code zeroStream =
      generate_verification_code (fun i => if i < 6 then 0 else 7) :=
  C9_secrets_determined_by_prng_state.1 zeroStream (fun i => if i < 6 then 0 else 7)
    (by intro i hi; simp [zeroStream, hi])

/-- C10: whenever one of the five service operations answers a failure
result, the store it returns is exactly the store it was given — no insert
or update has happened. -/
theorem C10_failure_leaves_store_unchanged :
    (∀ stream salt now store email password fullname avatar dob m,
      (register_user stream salt now store email password fullname avatar dob).1 =
        .err m →
      (register_user stream salt now store email password fullname avatar dob).2 =
        store)
    ∧ (∀ now store email code m,
        (verify_email now store email code).1 = .err m →
        (verify_email now store email code).2 = store)
    ∧ (∀ now store email password m,
        (authenticate_user now store email password).1 = .err m →
        (authenticate_user now store email password).2 = store)
    ∧ (∀ stream now store email m,
        (initiate_password_reset stream now store email).1 = .err m →
        (initiate_password_reset stream now store email).2 = store)
    ∧ (∀ salt now store email tok newp m,
        (confirm_password_reset salt now store email tok newp).1 = .err m →
        (confirm_password_reset salt now store email tok newp).2 = store) := by
  refine ⟨?_, ?_, ?_, ?_, ?_⟩
  · intro stream salt now store email password fullname avatar dob m h
    cases hfind : find_one store email with
    | some u => rw [register_user_found hfind]
    | none =>
        rw [register_user_absent hfind] at h
        simp at h
  · intro now store email code m h
    rcases verify_email_cases now store email code with ⟨m2, hm⟩ | ⟨u, -, -, -, hok⟩
    · rw [hm]
    · rw [hok] at h
      simp at h
  · intro now store email password m h
    exact authenticate_user_snd now store email password
  · intro stream now store email m h
    obtain ⟨v, hv⟩ := initiate_password_reset_ok stream now store email
    rw [hv] at h
    simp at h
  · intro salt now store email tok newp m h
    rcases confirm_password_reset_cases salt now store email tok newp with
      ⟨m2, hm⟩ | ⟨u, -, -, hok⟩
    · rw [hm]
    · rw [hok] at h
      simp at h

/-- Witness for C10 at a concrete input: the failing duplicate registration
on demoStore returns demoStore itself. -/
theorem C10_failure_leaves_store_unchanged_witness :
    (register_user zeroStream 0 0 demoStore "a@x.com" "pwpwpwpw" none none none).2 =
      demoStore :=
  C10_failure_leaves_store_unchanged.1 zeroStream 0 0 demoStore "a@x.com"
    "pwpwpwpw" none none none "User already exists" (by decide)

lemma setClaim_sub_exp (email : String) (ex : Int) :
    setClaim [("sub", .str email)] "exp" (.int ex) =
      [("sub", .str email), ("exp", .int ex)] := by
  simp [setClaim]

/-- C4: a token issued for a subject with a positive time to live verifies,
at any check instant not past the expiry instant, back to that same
subject; and verify_token rejects every token whose integer expiry claim
lies in the past, every token with no sub claim, and every token whose sub
claim is malformed (not a string). -/
theorem C4_token_roundtrip_and_rejection :
    (∀ email ttl now now2, 0 < ttl → now2 ≤ now + ttl →
      get_email_from_token
        (create_access_token [("sub", .str email)] (some ttl) now) now2 =
        some email)
    ∧ (∀ t now e, lookupClaim t.claims "exp" = some (.int e) → e < now →
        verify_token t now = none)
    ∧ (∀ t now, lookupClaim t.claims "sub" = none → verify_token t now = none)
    ∧ (∀ t now n, lookupClaim t.claims "sub" = some (.int n) →
        verify_token t now = none) := by
  refine ⟨?_, ?_, ?_, ?_⟩
  · intro email ttl now now2 hpos hle
    rw [create_access_token]
    simp only [setClaim_sub_exp]
    rw [get_email_from_token, verify_token, jwt_decode]
    simp [jwt_encode, jwt_algorithm, lookupClaim, validate_sub,
      not_lt.mpr hle]
  · intro t now e hexp hlt
    rw [verify_token, jwt_decode]
    by_cases hkey : (t.key == jwt_secret_key && [jwt_algorithm].contains t.alg) = true
    · rw [if_pos hkey, hexp]
      simp [hlt]
    · rw [if_neg hkey]
  · intro t now hsub
    rw [verify_token, jwt_decode]
    by_cases hkey : (t.key == jwt_secret_key && [jwt_algorithm].contains t.alg) = true
    · rw [if_pos hkey]
      cases hexp : lookupClaim t.claims "exp" with
      | none => simp [validate_sub, hsub]
      | some v =>
          cases v with
          | str s => simp
          | int e =>
              by_cases hlt : e < now
              · simp [hlt]
              · simp [hlt, validate_sub, hsub]
    · rw [if_neg hkey]
  · intro t now n hsub
    rw [verify_token, jwt_decode]
    by_cases hkey : (t.key == jwt_secret_key && [jwt_algorithm].contains t.alg) = true
    · rw [if_pos hkey]
      cases hexp : lookupClaim t.claims "exp" with
      | none => simp [validate_sub, hsub]
      | some v =>
          cases v with
          | str s => simp
          | int e =>
              by_cases hlt : e < now
              · simp [hlt]
              · simp [hlt, validate_sub, hsub]
    · rw [if_neg hkey]

/-- Witness for C4 at a concrete input: a token issued for the demo subject
with a sixty-second time to live verifies back to the subject thirty
seconds later. -/
theorem C4_token_roundtrip_and_rejection_witness :
    get_email_from_token
      (create_access_token [("sub", .str "a@x.com")] (some 60) 0) 30 =
      some "a@x.com" :=
  C4_token_roundtrip_and_rejection.1 "a@x.com" 60 0 30 (by decide) (by decide)

end Sevico
